import Mathlib

/-!
Verification of the credential-issuance / storage-client management core of
fastapi-minio-workspaces.  The Python sources under `workspacesio/` are given a
shallow embedding: the `Boto3ClientCache` dict becomes an association list with
dict semantics, `hashlib.sha256(...).hexdigest()` is embedded as an executable
SHA-256 over byte lists (`Nat` values below 256), and fallible Python code
(raise) returns `Except`.
-/

/-! ## SHA-256 (embedding of `hashlib.sha256(...).hexdigest()`)

Machine words are `Nat` reduced mod 2^32 at every operation that can overflow.
-/

def rotr (n x : Nat) : Nat := ((x >>> n) ||| (x <<< (32 - n))) % 4294967296

def bigSigma0 (x : Nat) : Nat := (rotr 2 x) ^^^ (rotr 13 x) ^^^ (rotr 22 x)

def bigSigma1 (x : Nat) : Nat := (rotr 6 x) ^^^ (rotr 11 x) ^^^ (rotr 25 x)

def smallSigma0 (x : Nat) : Nat := (rotr 7 x) ^^^ (rotr 18 x) ^^^ (x >>> 3)

def smallSigma1 (x : Nat) : Nat := (rotr 17 x) ^^^ (rotr 19 x) ^^^ (x >>> 10)

def chFn (x y z : Nat) : Nat := (x &&& y) ^^^ ((4294967295 - x) &&& z)

def majFn (x y z : Nat) : Nat := (x &&& y) ^^^ (x &&& z) ^^^ (y &&& z)

def sha256K : List Nat :=
  [1116352408, 1899447441, 3049323471, 3921009573, 961987163, 1508970993,
   2453635748, 2870763221, 3624381080, 310598401, 607225278, 1426881987,
   1925078388, 2162078206, 2614888103, 3248222580, 3835390401, 4022224774,
   264347078, 604807628, 770255983, 1249150122, 1555081692, 1996064986,
   2554220882, 2821834349, 2952996808, 3210313671, 3336571891, 3584528711,
   113926993, 338241895, 666307205, 773529912, 1294757372, 1396182291,
   1695183700, 1986661051, 2177026350, 2456956037, 2730485921, 2820302411,
   3259730800, 3345764771, 3516065817, 3600352804, 4094571909, 275423344,
   430227734, 506948616, 659060556, 883997877, 958139571, 1322822218,
   1537002063, 1747873779, 1955562222, 2024104815, 2227730452, 2361852424,
   2428436474, 2756734187, 3204031479, 3329325298]

structure Hash8 where
  a : Nat
  b : Nat
  c : Nat
  d : Nat
  e : Nat
  f : Nat
  g : Nat
  h : Nat
deriving DecidableEq, Repr

def sha256H0 : Hash8 :=
  ⟨1779033703, 3144134277, 1013904242, 2773480762,
   1359893119, 2600822924, 528734635, 1541459225⟩

def roundStep (st : Hash8) (kw : Nat) : Hash8 :=
  let t1 := (st.h + bigSigma1 st.e + chFn st.e st.f st.g + kw) % 4294967296
  let t2 := (bigSigma0 st.a + majFn st.a st.b st.c) % 4294967296
  { a := (t1 + t2) % 4294967296, b := st.a, c := st.b, d := st.c,
    e := (st.d + t1) % 4294967296, f := st.e, g := st.f, h := st.g }

def bytesToWords : List Nat → List Nat
  | b0 :: b1 :: b2 :: b3 :: rest =>
      (b0 * 16777216 + b1 * 65536 + b2 * 256 + b3) :: bytesToWords rest
  | _ => []

def extendWFuel : Nat → List Nat → List Nat
  | 0, w => w
  | fuel + 1, w =>
    if w.length < 64 then
      let n := w.length
      let nw := (w.getD (n - 16) 0 + smallSigma0 (w.getD (n - 15) 0) +
                 w.getD (n - 7) 0 + smallSigma1 (w.getD (n - 2) 0)) % 4294967296
      extendWFuel fuel (w ++ [nw])
    else w

def extendW (w : List Nat) : List Nat := extendWFuel 64 w

def sha256Compress (st : Hash8) (block : List Nat) : Hash8 :=
  let w := extendW (bytesToWords block)
  let r := (sha256K.zip w).foldl (fun s p => roundStep s (p.1 + p.2)) st
  { a := (st.a + r.a) % 4294967296, b := (st.b + r.b) % 4294967296,
    c := (st.c + r.c) % 4294967296, d := (st.d + r.d) % 4294967296,
    e := (st.e + r.e) % 4294967296, f := (st.f + r.f) % 4294967296,
    g := (st.g + r.g) % 4294967296, h := (st.h + r.h) % 4294967296 }

def toBytesBE (k n : Nat) : List Nat :=
  (List.range k).map (fun i => n / (256 ^ (k - 1 - i)) % 256)

def sha256Pad (msg : List Nat) : List Nat :=
  let len := msg.length
  let zeros := (119 - len % 64) % 64
  msg ++ [128] ++ List.replicate zeros 0 ++ toBytesBE 8 (len * 8)

def chunks64Fuel : Nat → List Nat → List (List Nat)
  | _, [] => []
  | 0, _ => []
  | fuel + 1, l => l.take 64 :: chunks64Fuel fuel (l.drop 64)

def chunks64 (l : List Nat) : List (List Nat) := chunks64Fuel l.length l

def sha256Bytes (msg : List Nat) : Hash8 :=
  (chunks64 (sha256Pad msg)).foldl sha256Compress sha256H0

def hexDigit (n : Nat) : Char :=
  if n < 10 then Char.ofNat (48 + n) else Char.ofNat (87 + n)

def toHexFixed (k n : Nat) : String :=
  String.mk ((List.range k).map (fun i => hexDigit (n / 16 ^ (k - 1 - i) % 16)))

def hexHash8 (st : Hash8) : String :=
  toHexFixed 8 st.a ++ toHexFixed 8 st.b ++ toHexFixed 8 st.c ++ toHexFixed 8 st.d ++
  toHexFixed 8 st.e ++ toHexFixed 8 st.f ++ toHexFixed 8 st.g ++ toHexFixed 8 st.h

/-- UTF-8 encoding of one character (code point), as Python `str.encode("utf-8")`. -/
def utf8EncodeChar (c : Char) : List Nat :=
  let n := c.toNat
  if n < 128 then [n]
  else if n < 2048 then [192 + n / 64, 128 + n % 64]
  else if n < 65536 then [224 + n / 4096, 128 + n / 64 % 64, 128 + n % 64]
  else [240 + n / 262144, 128 + n / 4096 % 64, 128 + n / 64 % 64, 128 + n % 64]

def utf8Encode (s : String) : List Nat := (s.data.map utf8EncodeChar).flatten

/-- Embedding of Python `hashlib.sha256(s.encode("utf-8")).hexdigest()`. -/
def sha256hex (s : String) : String := hexHash8 (sha256Bytes (utf8Encode s))

/-! ## Python-side modelling: exceptions, truthiness -/

/-- Exceptions raised by the embedded code paths. -/
inductive PyError where
  | valueError (msg : String)
  | notImplementedError (msg : String)
  | attributeError (name : String)
deriving DecidableEq, Repr

/-- Python truthiness of an optional string column (`None` and `""` are falsy). -/
def pyTruthy : Option String → Bool
  | none => false
  | some s => s != ""

/-- Python `str.lower()` on the character sequence (the inputs digested by the
cache are ASCII connection facts, where `Char.toLower` agrees with Python). -/
def str_lower (s : String) : String := String.mk (s.data.map Char.toLower)

/-! ## Data model: `workspacesio/models.py` `StorageNode` (the fields the
credential core reads; field defaults mirror the column defaults). -/

structure StorageNode where
  name : String
  api_url : String
  sts_api_url : Option String := none
  access_key_id : String
  secret_access_key : String
  region_name : String := "us-east-1"
  assume_role_arn : Option String := none
deriving DecidableEq, Repr

/-! ## Clients and the cache dict

A constructed client is modelled by its construction parameters (the arguments
the source passes to `boto3.client` / `minio.Minio`).  The cache dict
`Boto3ClientCache.cache` is an association list with dict semantics:
lookup finds the unique binding, assignment replaces an existing binding. -/

inductive Client where
  | boto (client_type region_name endpoint_url access_key_id secret_access_key : String)
      (sigv4 : Bool)
  | minioSdk (endpoint access_key secret_key : String) (secure : Bool)
deriving DecidableEq, Repr

abbrev Cache := List (String × Client)

/-- `self.cache.get(key, None)`. -/
def cacheGet : Cache → String → Option Client
  | [], _ => none
  | (k1, v) :: rest, k => if k1 = k then some v else cacheGet rest k

/-- `self.cache[key] = client`. -/
def cacheSet : Cache → String → Client → Cache
  | [], k, v => [(k, v)]
  | (k1, v1) :: rest, k, v =>
      if k1 = k then (k, v) :: rest else (k1, v1) :: cacheSet rest k v

/-! ## `workspacesio/depends.py` `Boto3ClientCache` -/

/-- `Boto3ClientCache._get_primary_key` (depends.py lines 26-40). -/
def _get_primary_key (client_type : String) (node : StorageNode) :
    Except PyError String :=
  if ¬ client_type ∈ (["s3", "sts"] : List String) then
    .error (.valueError (client_type ++ " unsupported by cache"))
  else
    .ok (sha256hex (str_lower (client_type ++ node.region_name ++ node.api_url ++
          node.access_key_id ++ node.secret_access_key)))

/-- The construction block of `Boto3ClientCache.get_client` (depends.py lines
49-76): build a boto3 client from the node facts.  The `s3` branch passes
`Config(signature_version="s3v4")`; the `sts` branch recomputes the endpoint:
`is_aws = node.assume_role_arn is not None`, then the explicit STS URL if
truthy, else the synthesized AWS regional endpoint if `is_aws`, else the
node's own API URL. -/
def build_client (client_type : String) (node : StorageNode) :
    Except PyError Client :=
  if client_type = "s3" then
    .ok (.boto "s3" node.region_name node.api_url node.access_key_id
          node.secret_access_key true)
  else if client_type = "sts" then
    let is_aws := node.assume_role_arn.isSome
    let api_url :=
      if pyTruthy node.sts_api_url then node.sts_api_url.getD ""
      else if is_aws then "https://sts." ++ node.region_name ++ ".amazonaws.com"
      else node.api_url
    .ok (.boto "sts" node.region_name api_url node.access_key_id
          node.secret_access_key false)
  else
    .error (.notImplementedError "Client type not implemented")

/-- `Boto3ClientCache.get_client` (depends.py lines 42-78): derive the key,
return the cached client on a hit, otherwise construct, store, and return.
The returned cache is the state of `self.cache` after the call; on an
exception the dict is unchanged. -/
def get_client (self : Cache) (client_type : String) (node : StorageNode) :
    Except PyError Client × Cache :=
  match _get_primary_key client_type node with
  | .error e => (.error e, self)
  | .ok primary_key_short_sha256 =>
    match cacheGet self primary_key_short_sha256 with
    | some client => (.ok client, self)
    | none =>
      match build_client client_type node with
      | .error e => (.error e, self)
      | .ok client => (.ok client, cacheSet self primary_key_short_sha256 client)

/-! ### `urllib.parse.urlparse(...).netloc` -/

def schemeChar (c : Char) : Bool :=
  c.isAlpha || c.isDigit || c == '+' || c == '-' || c == '.'

/-- Scheme stripping of Python urlsplit: when the text before the first colon
is a non-empty run of scheme characters starting with a letter, drop it
together with the colon. -/
def dropSchemePart (cs : List Char) : List Char :=
  let pre := cs.takeWhile (fun c => c != ':')
  match cs.drop pre.length with
  | ':' :: t =>
    match pre with
    | [] => cs
    | c0 :: _ => if c0.isAlpha && pre.all schemeChar then t else cs
  | _ => cs

/-- `urllib.parse.urlparse(url).netloc`: after scheme stripping, when the rest
starts with two slashes the netloc runs to the next of the three delimiters,
otherwise it is empty. -/
def urlparse_netloc (url : String) : String :=
  match dropSchemePart url.data with
  | '/' :: '/' :: t =>
      String.mk (t.takeWhile (fun c => !(c == '/' || c == '?' || c == '#')))
  | _ => ""

/-- `Boto3ClientCache.get_minio_sdk_client` (depends.py lines 80-96): the key
is the `s3` primary key with `"minio"` appended; on a miss the client is
constructed against the netloc of the node's API URL with `secure=False`. -/
def get_minio_sdk_client (self : Cache) (node : StorageNode) :
    Except PyError Client × Cache :=
  match _get_primary_key "s3" node with
  | .error e => (.error e, self)
  | .ok pk =>
    let primary_key_short_sha256 := pk ++ "minio"
    match cacheGet self primary_key_short_sha256 with
    | some client => (.ok client, self)
    | none =>
      let client := Client.minioSdk (urlparse_netloc node.api_url)
        node.access_key_id node.secret_access_key false
      (.ok client, cacheSet self primary_key_short_sha256 client)

/-- `get_boto` (depends.py lines 107-108): the FastAPI dependency yields a
newly constructed `Boto3ClientCache()` for every request; its only state is
the dict initialized to `{}` by `__init__` (lines 23-24). -/
def get_boto (_ : Unit) : Cache := []

/-! ## `workspacesio/models.py`: column defaults (claim C6)

SQLAlchemy evaluates a column `default=` argument at class-body execution
(module definition) time; when a plain value is passed the same value is used
for every row, and only a passed *callable* is re-invoked per insert.  Clock
instants are seconds as `Nat`. -/

inductive ColumnDefault where
  | scalar (v : Nat)
  | callable (f : Nat → Nat)

def applyDefault : ColumnDefault → Nat → Nat
  | .scalar v, _ => v
  | .callable f, t => f t

def datetime_now (clock : Nat) : Nat := clock

def timedelta_days (d : Nat) : Nat := d * 86400

/-- models.py lines 225-229: `S3Token.expiration` passes
`default=datetime.datetime.now() + datetime.timedelta(days=7)` — an expression
evaluated once when the model class body runs, hence a scalar default. -/
def S3Token_expiration_default (definitionTime : Nat) : ColumnDefault :=
  .scalar (datetime_now definitionTime + timedelta_days 7)

/-- models.py line 53: `created = Column(DateTime, default=datetime.datetime.utcnow)`
passes the function itself, re-evaluated at each insert. -/
def BaseModel_created_default : ColumnDefault :=
  .callable datetime_now

/-- Expiration stored for an `S3Token` row inserted at `insertTime` with an
optional explicit expiration value. -/
def insertS3TokenExpiration (definitionTime insertTime : Nat)
    (explicit : Option Nat) : Nat :=
  match explicit with
  | some e => e
  | none => applyDefault (S3Token_expiration_default definitionTime) insertTime

/-! ## `workspacesio/models.py`: `ApiKey.create` / `ApiKey.verify` (claim C9)

A Python object's writable attribute store is an association list; reading an
absent attribute raises `AttributeError`.  The bcrypt calls are embedded
symbolically: a hash value remembers the password and salt that produced it,
and `checkpw` matches the password against the remembered one. -/

inductive PyVal where
  | str (s : String)
  | uuidVal (n : Nat)
  | bcryptHash (password salt : String)
deriving DecidableEq, Repr

def bcrypt_hashpw (password salt : String) : PyVal := .bcryptHash password salt

def bcrypt_checkpw (password : String) : PyVal → Bool
  | .bcryptHash p _ => password == p
  | _ => false

structure ApiKeyObj where
  attrs : List (String × PyVal)
deriving DecidableEq, Repr

def attrLookup : List (String × PyVal) → String → Option PyVal
  | [], _ => none
  | (k, v) :: rest, n => if k = n then some v else attrLookup rest n

/-- models.py lines 86-95 `ApiKey.create`: `key_db = cls(user_id=user.id)`;
`key_str = secrets.token_urlsafe(32)` (the generated secret and the bcrypt
salt enter as parameters); `key_db.key_hash = bcrypt.hashpw(...)` assigns a
plain attribute named `key_hash` — the `secret_hash` column is never
assigned. -/
def ApiKey_create (user_id : Nat) (key_str salt : String) : String × ApiKeyObj :=
  (key_str,
   ⟨[("user_id", .uuidVal user_id), ("key_hash", bcrypt_hashpw key_str salt)]⟩)

/-- models.py lines 97-99 `ApiKey.verify`: returns
`bcrypt.checkpw(key.encode("utf-8"), apikey.token_hash)`; reading the absent
`token_hash` attribute raises `AttributeError`. -/
def ApiKey_verify (apikey : ApiKeyObj) (key : String) : Except PyError Bool :=
  match attrLookup apikey.attrs "token_hash" with
  | none => .error (.attributeError "token_hash")
  | some h1 => .ok (bcrypt_checkpw key h1)

/-! ## Interleaving model of two concurrent `get_client` calls (claim C7)

The dict is the only shared state.  A thread takes at most two atomic steps:
from `start` it derives the key and performs the dict read (finishing on a
hit, recording the miss otherwise); from `missed` it runs the construction
block and performs the dict write.  `builds` counts executions of the
construction block. -/

inductive Phase where
  | start
  | missed
  | done (c : Client)
  | failed (e : PyError)
deriving DecidableEq, Repr

structure RaceState where
  cache : Cache
  p1 : Phase
  p2 : Phase
  builds : Nat

/-- One atomic step of a thread running `get_client` against the shared dict. -/
def threadRun (client_type : String) (node : StorageNode) (cache : Cache) :
    Phase → Cache × Phase × Nat
  | .start =>
    match _get_primary_key client_type node with
    | .error e => (cache, .failed e, 0)
    | .ok key =>
      match cacheGet cache key with
      | some c => (cache, .done c, 0)
      | none => (cache, .missed, 0)
  | .missed =>
    match _get_primary_key client_type node, build_client client_type node with
    | .ok key, .ok c => (cacheSet cache key c, .done c, 1)
    | .error e, _ => (cache, .failed e, 0)
    | .ok _, .error e => (cache, .failed e, 0)
  | p => (cache, p, 0)

def raceStep (client_type : String) (node : StorageNode) (s : RaceState)
    (which : Bool) : RaceState :=
  if which then
    let r := threadRun client_type node s.cache s.p1
    { cache := r.1, p1 := r.2.1, p2 := s.p2, builds := s.builds + r.2.2 }
  else
    let r := threadRun client_type node s.cache s.p2
    { cache := r.1, p1 := s.p1, p2 := r.2.1, builds := s.builds + r.2.2 }

/-- Run two concurrent `get_client` calls with the same arguments from a cold
cache under the interleaving `sched` (`true` schedules thread 1). -/
def runRace (client_type : String) (node : StorageNode) (sched : List Bool) :
    RaceState :=
  sched.foldl (raceStep client_type node) ⟨[], .start, .start, 0⟩

/-- Upper bound on the constructions a thread in the given phase may have
performed; used by the race invariant. -/
def phaseBuilds : Phase → Nat
  | .done _ => 1
  | _ => 0

/-- Invariant of the two-thread race on one key: either nothing has been
written yet (cold cache, no constructions), or the dict holds exactly the one
binding for the contended key and at most one construction per finished
thread has happened. -/
def raceInv (key : String) (clB : Client) (s : RaceState) : Prop :=
  (s.cache = [] ∧ (s.p1 = .start ∨ s.p1 = .missed) ∧
    (s.p2 = .start ∨ s.p2 = .missed) ∧ s.builds = 0) ∨
  (s.cache = [(key, clB)] ∧
    (s.p1 = .start ∨ s.p1 = .missed ∨ s.p1 = .done clB) ∧
    (s.p2 = .start ∨ s.p2 = .missed ∨ s.p2 = .done clB) ∧
    s.builds ≤ phaseBuilds s.p1 + phaseBuilds s.p2)

/-! ## Spec-side definitions for claim C4 -/

/-- Follows the spec's words for claim C4, reading "the node's assume-role ARN
is non-empty" as: the ARN is a present, non-empty string.  Priority: the
declared (truthy) STS URL; else the synthesized regional endpoint exactly when
the ARN is non-empty; else the node's own API URL. -/
def stsEndpointClaimC4 (node : StorageNode) : String :=
  if pyTruthy node.sts_api_url then node.sts_api_url.getD ""
  else if pyTruthy node.assume_role_arn then
    "https://sts." ++ node.region_name ++ ".amazonaws.com"
  else node.api_url

/-- The amended C4 rule: as `stsEndpointClaimC4`, except that the synthesized
regional endpoint is chosen exactly when the assume-role ARN is *present*
(non-null) — matching `is not None` — even when it is the empty string. -/
def stsEndpointAmendedC4 (node : StorageNode) : String :=
  if pyTruthy node.sts_api_url then node.sts_api_url.getD ""
  else if node.assume_role_arn.isSome then
    "https://sts." ++ node.region_name ++ ".amazonaws.com"
  else node.api_url

/-! ## Concrete storage-node configurations used by the closed theorems -/

/-- A node-native storage node that declares an explicit STS URL. -/
def nodeSts1 : StorageNode :=
  { name := "minio-main", api_url := "http://minio.internal:9000",
    sts_api_url := some "http://sts.minio.internal:9000",
    access_key_id := "workspaces", secret_access_key := "Sekret123",
    region_name := "us-east-1", assume_role_arn := none }

/-- The same connection facts with no STS URL declared. -/
def nodeSts2 : StorageNode := { nodeSts1 with sts_api_url := none }

/-- Same facts as `nodeSts1` but the secret differs in letter case only. -/
def nodeCaseSecret : StorageNode := { nodeSts1 with secret_access_key := "sekret123" }

/-- A node whose assume-role ARN is present but is the empty string. -/
def nodeEmptyArn : StorageNode :=
  { name := "edge-node", api_url := "http://minio.internal:9000",
    sts_api_url := none, access_key_id := "AKIAXYZ",
    secret_access_key := "sekret", region_name := "us-east-1",
    assume_role_arn := some "" }

/-- An independently registered node with the same five digested fields as
`nodeSts1` (different name, different assume-role ARN). -/
def nodeDup : StorageNode :=
  { nodeSts1 with
    name := "minio-clone",
    assume_role_arn := some "arn:aws:iam::123456789012:role/empty" }

/-- A public-cloud-style node whose API URL uses the https scheme. -/
def nodeHttps : StorageNode :=
  { name := "cloud", api_url := "https://s3.example.com:9000",
    sts_api_url := none, access_key_id := "AKIACLOUD",
    secret_access_key := "TopSecret", region_name := "eu-west-1",
    assume_role_arn := some "arn:aws:iam::123456789012:role/workspaces" }

/-! ## Dict lemmas -/

theorem cacheGet_nil (k : String) : cacheGet [] k = none := rfl

theorem cacheGet_cacheSet_self (c : Cache) (k : String) (v : Client) :
    cacheGet (cacheSet c k v) k = some v := by
  induction c with
  | nil => simp [cacheSet, cacheGet]
  | cons hd tl ih =>
    obtain ⟨k1, v1⟩ := hd
    by_cases h1 : k1 = k
    · simp [cacheSet, h1, cacheGet]
    · simp [cacheSet, h1, cacheGet, ih]

theorem mem_map_fst_of_cacheGet (c : Cache) (k : String) (v : Client)
    (h : cacheGet c k = some v) : k ∈ c.map Prod.fst := by
  induction c with
  | nil => simp [cacheGet] at h
  | cons hd tl ih =>
    obtain ⟨k1, v1⟩ := hd
    by_cases h1 : k1 = k
    · subst h1; simp
    · simp [cacheGet, h1] at h
      simp [ih h]

theorem map_fst_cacheSet (c : Cache) (k : String) (v : Client) :
    (cacheSet c k v).map Prod.fst =
      if k ∈ c.map Prod.fst then c.map Prod.fst
      else c.map Prod.fst ++ [k] := by
  induction c with
  | nil => simp [cacheSet]
  | cons hd tl ih =>
    obtain ⟨k1, v1⟩ := hd
    by_cases h1 : k1 = k
    · subst h1; simp [cacheSet]
    · have h1s : ¬ k = k1 := fun hh => h1 hh.symm
      simp [cacheSet, h1, ih, h1s]
      split <;> rename_i h2 <;> simp [List.mem_cons, h1s, h2]

theorem nodup_map_fst_cacheSet (c : Cache) (k : String) (v : Client)
    (h : (c.map Prod.fst).Nodup) :
    ((cacheSet c k v).map Prod.fst).Nodup := by
  rw [map_fst_cacheSet]
  split
  · exact h
  · next h2 => simp [List.nodup_append, h, h2]

theorem count_map_fst_cacheSet_self (c : Cache) (k : String) (v : Client)
    (h : (c.map Prod.fst).Nodup) :
    ((cacheSet c k v).map Prod.fst).count k = 1 := by
  rw [map_fst_cacheSet]
  split
  · next h2 => exact List.count_eq_one_of_mem h h2
  · next h2 => simp [List.count_append, List.count_eq_zero_of_not_mem h2]

/-! ## Key-derivation helper lemmas -/

/-- For a supported client kind the primary key is the SHA-256 hex digest of
the lowercased concatenation of the five connection facts. -/
theorem _get_primary_key_ok (client_type : String) (node : StorageNode)
    (h : client_type ∈ (["s3", "sts"] : List String)) :
    _get_primary_key client_type node =
      .ok (sha256hex (str_lower (client_type ++ node.region_name ++ node.api_url ++
        node.access_key_id ++ node.secret_access_key))) := by
  simp [_get_primary_key, h]

/-- Two nodes agreeing on the five digested fields share their primary key
(for every client kind). -/
theorem primary_key_congr (client_type : String) (n1 n2 : StorageNode)
    (hr : n1.region_name = n2.region_name) (ha : n1.api_url = n2.api_url)
    (hak : n1.access_key_id = n2.access_key_id)
    (hsk : n1.secret_access_key = n2.secret_access_key) :
    _get_primary_key client_type n1 = _get_primary_key client_type n2 := by
  simp [_get_primary_key, hr, ha, hak, hsk]

theorem build_client_s3 (node : StorageNode) :
    build_client "s3" node =
      .ok (.boto "s3" node.region_name node.api_url node.access_key_id
        node.secret_access_key true) := rfl

theorem build_client_sts (node : StorageNode) :
    build_client "sts" node =
      .ok (.boto "sts" node.region_name
        (if pyTruthy node.sts_api_url then node.sts_api_url.getD ""
         else if node.assume_role_arn.isSome then
           "https://sts." ++ node.region_name ++ ".amazonaws.com"
         else node.api_url)
        node.access_key_id node.secret_access_key false) := rfl

/-- For a supported client kind `build_client` always succeeds. -/
theorem build_client_isOk (client_type : String) (node : StorageNode)
    (h : client_type ∈ (["s3", "sts"] : List String)) :
    ∃ cl, build_client client_type node = .ok cl := by
  simp at h
  rcases h with h | h <;> subst h
  · exact ⟨_, build_client_s3 node⟩
  · exact ⟨_, build_client_sts node⟩

/-- When two nodes share a primary key, a client obtained (and cached) for the
first is returned unchanged — no rebuild, no cache growth — for the second. -/
theorem get_client_shared (client_type : String) (n1 n2 : StorageNode)
    (hpk : _get_primary_key client_type n1 = _get_primary_key client_type n2)
    (cache : Cache) (cl : Client) (cache1 : Cache)
    (hcall : get_client cache client_type n1 = (.ok cl, cache1)) :
    get_client cache1 client_type n2 = (.ok cl, cache1) := by
  rcases hp1 : _get_primary_key client_type n1 with e | key
  · simp [get_client, hp1] at hcall
  · have hp2 : _get_primary_key client_type n2 = .ok key := by rw [← hpk, hp1]
    simp [get_client, hp1] at hcall
    rcases hc : cacheGet cache key with _ | cl0
    · simp [hc] at hcall
      rcases hb : build_client client_type n1 with e | clB
      · simp [hb] at hcall
      · simp [hb] at hcall
        obtain ⟨hcl, hc1⟩ := hcall
        subst hcl
        simp [get_client, hp2, ← hc1, cacheGet_cacheSet_self]
    · simp [hc] at hcall
      obtain ⟨hcl, hc1⟩ := hcall
      subst hcl
      subst hc1
      simp [get_client, hp2, hc]

/-! ## SHA-256 sanity and length facts -/

/-- FIPS 180-4 test vector, checking the executable embedding of SHA-256. -/
theorem sha256hex_testvector :
    sha256hex "abc" =
      "ba7816bf8f01cfea414140de5dae2223b00361a396177a9cb410ff61f20015ad" := by
  decide

theorem toHexFixed_length (k n : Nat) : (toHexFixed k n).length = k := by
  simp [toHexFixed]

/-- Every hex digest produced by the embedded SHA-256 has 64 characters. -/
theorem sha256hex_length (s : String) : (sha256hex s).length = 64 := by
  simp [sha256hex, hexHash8, String.length_append, toHexFixed_length]

/-! ## Race-invariant preservation -/

theorem raceInv_step (client_type : String) (node : StorageNode)
    (key : String) (clB : Client)
    (hpk : _get_primary_key client_type node = .ok key)
    (hb : build_client client_type node = .ok clB)
    (s : RaceState) (w : Bool) (hs : raceInv key clB s) :
    raceInv key clB (raceStep client_type node s w) := by
  have hrsn : threadRun client_type node [] .start = ([], .missed, 0) := by
    simp [threadRun, hpk, cacheGet]
  have hrmn : threadRun client_type node [] .missed = ([(key, clB)], .done clB, 1) := by
    simp [threadRun, hpk, hb, cacheSet]
  have hrso : threadRun client_type node [(key, clB)] .start =
      ([(key, clB)], .done clB, 0) := by
    simp [threadRun, hpk, cacheGet]
  have hrmo : threadRun client_type node [(key, clB)] .missed =
      ([(key, clB)], .done clB, 1) := by
    simp [threadRun, hpk, hb, cacheSet]
  have hrd : ∀ cache c, threadRun client_type node cache (.done c) = (cache, .done c, 0) :=
    fun _ _ => rfl
  simp only [raceInv] at hs ⊢
  rcases hs with ⟨hc, hp1, hp2, hbu⟩ | ⟨hc, hp1, hp2, hble⟩
  · rcases hp1 with h1 | h1 <;> rcases hp2 with h2 | h2 <;> cases w <;>
      simp [raceStep, hc, h1, h2, hrsn, hrmn, hbu, phaseBuilds]
  · rcases hp1 with h1 | h1 | h1 <;> rcases hp2 with h2 | h2 | h2 <;> cases w <;>
      refine Or.inr ?_ <;>
      simp [raceStep, hc, h1, h2, hrso, hrmo, hrd, phaseBuilds] at hble ⊢ <;>
      omega

/-! ## Claim theorems -/

/-- C6: the `S3Token` expiration default is a single datetime computed once at
model-definition time as (definition-time now + 7 days): every row inserted
without an explicit expiration receives that same frozen instant, whatever its
insert time — in contrast to the callable `created` default, which tracks the
insert-time clock. -/
theorem c6_frozen_default (definitionTime t1 t2 : Nat) :
    insertS3TokenExpiration definitionTime t1 none =
      insertS3TokenExpiration definitionTime t2 none ∧
    insertS3TokenExpiration definitionTime t1 none =
      datetime_now definitionTime + timedelta_days 7 ∧
    datetime_now definitionTime = definitionTime ∧
    timedelta_days 7 = 604800 ∧
    applyDefault BaseModel_created_default t1 = t1 :=
  ⟨rfl, rfl, rfl, rfl, rfl⟩

/-- C9: the ApiKey create/verify round trip never succeeds: `create` stores
the bcrypt hash under an attribute named `key_hash`, leaving `secret_hash`
unset, and `verify` reads the never-assigned `token_hash`, raising
`AttributeError` — although the stored hash itself would have matched the
freshly created key. -/
theorem c9_apikey_roundtrip_fails (user_id : Nat) (key_str salt : String) :
    (ApiKey_create user_id key_str salt).1 = key_str ∧
    ApiKey_verify (ApiKey_create user_id key_str salt).2 key_str =
      .error (.attributeError "token_hash") ∧
    attrLookup (ApiKey_create user_id key_str salt).2.attrs "secret_hash" = none ∧
    attrLookup (ApiKey_create user_id key_str salt).2.attrs "key_hash" =
      some (bcrypt_hashpw key_str salt) ∧
    bcrypt_checkpw key_str (bcrypt_hashpw key_str salt) = true := by
  refine ⟨rfl, ?_, ?_, ?_, ?_⟩ <;>
    simp [ApiKey_create, ApiKey_verify, attrLookup, bcrypt_checkpw, bcrypt_hashpw]

/-- C2 (code bug): `get_boto` yields a newly constructed, *empty*
`Boto3ClientCache` to every request.  A first request fills its
dependency-provided cache at the derived key, but a later request's
dependency-provided cache is again empty at that very key, so the client is
rebuilt instead of found. -/
theorem c2_fresh_cache_per_request :
    get_boto () = ([] : Cache) ∧
    (∃ cl key, get_client (get_boto ()) "s3" nodeSts1 = (.ok cl, [(key, cl)]) ∧
      cacheGet (get_boto ()) key = none) :=
  ⟨rfl, ⟨_, _, rfl, rfl⟩⟩

/-- C4 counterexample: `nodeEmptyArn` declares no STS URL and carries an
assume-role ARN that is *empty as a string* (`Some ""`).  The claim's rule
("synthesized endpoint if and only if the ARN is non-empty") selects the
node's own API URL, but the code — which tests `assume_role_arn is not None`
— builds the sts client against the synthesized AWS regional endpoint. -/
theorem c4_counterexample :
    nodeEmptyArn.sts_api_url = none ∧
    nodeEmptyArn.assume_role_arn = some "" ∧
    stsEndpointClaimC4 nodeEmptyArn = nodeEmptyArn.api_url ∧
    (get_client [] "sts" nodeEmptyArn).1 =
      .ok (.boto "sts" "us-east-1" "https://sts.us-east-1.amazonaws.com"
        "AKIAXYZ" "sekret" false) ∧
    nodeEmptyArn.api_url ≠ "https://sts.us-east-1.amazonaws.com" := by
  refine ⟨rfl, rfl, rfl, ?_, by decide⟩
  simp [get_client, _get_primary_key, build_client, cacheGet, pyTruthy, nodeEmptyArn]

/-- C4 amended: for every node the sts client is built against the endpoint
chosen by: the declared (truthy) STS URL if any; otherwise the synthesized
regional endpoint `https://sts.{region}.amazonaws.com` exactly when the
assume-role ARN is *present* (non-null, even when it is the empty string);
otherwise the node's own API URL. -/
theorem c4_amended (node : StorageNode) :
    (get_client [] "sts" node).1 =
      .ok (.boto "sts" node.region_name (stsEndpointAmendedC4 node)
        node.access_key_id node.secret_access_key false) := by
  simp [get_client, _get_primary_key, build_client, cacheGet, stsEndpointAmendedC4]

/-- C1 counterexample: two configurations that differ in the STS endpoint the
sts-kind client uses derive the *same* cache key (the digest omits the STS
URL), as do two whose secret keys differ only in letter case (the digest
lowercases); and `getClient` does return a client built from the other
configuration: after warming the cache for `nodeSts1`, the call for
`nodeSts2` — which declares no STS URL — returns the client pointed at
`nodeSts1`'s STS URL. -/
theorem c1_counterexample :
    nodeSts1.sts_api_url ≠ nodeSts2.sts_api_url ∧
    _get_primary_key "sts" nodeSts1 = _get_primary_key "sts" nodeSts2 ∧
    nodeCaseSecret.secret_access_key ≠ nodeSts1.secret_access_key ∧
    _get_primary_key "s3" nodeCaseSecret = _get_primary_key "s3" nodeSts1 ∧
    (∃ cache1,
      get_client (get_boto ()) "sts" nodeSts1 =
        (.ok (.boto "sts" "us-east-1" "http://sts.minio.internal:9000"
          "workspaces" "Sekret123" false), cache1) ∧
      get_client cache1 "sts" nodeSts2 =
        (.ok (.boto "sts" "us-east-1" "http://sts.minio.internal:9000"
          "workspaces" "Sekret123" false), cache1)) := by
  have hpk := primary_key_congr "sts" nodeSts1 nodeSts2 rfl rfl rfl rfl
  have hcase : str_lower ("s3" ++ nodeCaseSecret.region_name ++ nodeCaseSecret.api_url ++
      nodeCaseSecret.access_key_id ++ nodeCaseSecret.secret_access_key) =
      str_lower ("s3" ++ nodeSts1.region_name ++ nodeSts1.api_url ++
      nodeSts1.access_key_id ++ nodeSts1.secret_access_key) := by decide
  have h1 : get_client (get_boto ()) "sts" nodeSts1 =
      (.ok (.boto "sts" "us-east-1" "http://sts.minio.internal:9000"
        "workspaces" "Sekret123" false),
       cacheSet []
         (sha256hex (str_lower ("sts" ++ "us-east-1" ++ "http://minio.internal:9000" ++
           "workspaces" ++ "Sekret123")))
         (.boto "sts" "us-east-1" "http://sts.minio.internal:9000"
           "workspaces" "Sekret123" false)) := rfl
  refine ⟨by decide, hpk, by decide, ?_, ⟨_, h1, get_client_shared "sts" nodeSts1 nodeSts2 hpk _ _ _ h1⟩⟩
  rw [_get_primary_key_ok "s3" nodeCaseSecret (by decide),
    _get_primary_key_ok "s3" nodeSts1 (by decide), hcase]

/-- C1 amended: the cache key is blind to the STS URL (and to letter case):
any two configurations agreeing on the five digested fields — even when their
STS endpoints differ — share one key, and a client cached for one is returned
for the other; distinct keys require a difference visible in the lowercased
concatenation of kind, region, API URL, access key id and secret. -/
theorem c1_amended (client_type : String) (n1 n2 : StorageNode)
    (hsts : n1.sts_api_url ≠ n2.sts_api_url)
    (hr : n1.region_name = n2.region_name) (ha : n1.api_url = n2.api_url)
    (hak : n1.access_key_id = n2.access_key_id)
    (hsk : n1.secret_access_key = n2.secret_access_key) :
    _get_primary_key client_type n1 = _get_primary_key client_type n2 ∧
    (∀ cache cl cache1, get_client cache client_type n1 = (.ok cl, cache1) →
      get_client cache1 client_type n2 = (.ok cl, cache1)) := by
  have hpk := primary_key_congr client_type n1 n2 hr ha hak hsk
  exact ⟨hpk, fun cache cl cache1 hcall =>
    get_client_shared client_type n1 n2 hpk cache cl cache1 hcall⟩

/-- Witness for the amended C1 at the concrete pair `nodeSts1`/`nodeSts2`. -/
theorem c1_amended_witness :
    nodeSts1.sts_api_url ≠ nodeSts2.sts_api_url ∧
    nodeSts1.api_url = nodeSts2.api_url ∧
    _get_primary_key "sts" nodeSts1 = _get_primary_key "sts" nodeSts2 :=
  ⟨by decide, rfl,
   (c1_amended "sts" nodeSts1 nodeSts2 (by decide) rfl rfl rfl rfl).1⟩

/-- C3: for each supported client kind the cache key is the SHA-256 hex digest
of the lowercased UTF-8 concatenation of kind, region, API URL, access key id
and secret; consequently two node configurations identical on those five
fields map to the same key and share one cached client — after either node's
client is obtained and cached, the call for the other returns that same
client and leaves the cache unchanged. -/
theorem c3_key_derivation (client_type : String) (n1 n2 : StorageNode)
    (h : client_type ∈ (["s3", "sts"] : List String))
    (hr : n1.region_name = n2.region_name) (ha : n1.api_url = n2.api_url)
    (hak : n1.access_key_id = n2.access_key_id)
    (hsk : n1.secret_access_key = n2.secret_access_key) :
    _get_primary_key client_type n1 =
      .ok (sha256hex (str_lower (client_type ++ n1.region_name ++ n1.api_url ++
        n1.access_key_id ++ n1.secret_access_key))) ∧
    _get_primary_key client_type n1 = _get_primary_key client_type n2 ∧
    (∀ cache cl cache1, get_client cache client_type n1 = (.ok cl, cache1) →
      get_client cache1 client_type n2 = (.ok cl, cache1)) := by
  refine ⟨_get_primary_key_ok client_type n1 h,
    primary_key_congr client_type n1 n2 hr ha hak hsk, ?_⟩
  exact fun cache cl cache1 hcall =>
    get_client_shared client_type n1 n2
      (primary_key_congr client_type n1 n2 hr ha hak hsk) cache cl cache1 hcall

/-- Witness for C3 at the concrete independently registered pair
`nodeSts1`/`nodeDup`. -/
theorem c3_witness :
    ("s3" ∈ (["s3", "sts"] : List String)) ∧
    nodeSts1.region_name = nodeDup.region_name ∧
    nodeSts1.api_url = nodeDup.api_url ∧
    nodeSts1.access_key_id = nodeDup.access_key_id ∧
    nodeSts1.secret_access_key = nodeDup.secret_access_key ∧
    _get_primary_key "s3" nodeSts1 = _get_primary_key "s3" nodeDup :=
  ⟨by decide, rfl, rfl, rfl, rfl,
   (c3_key_derivation "s3" nodeSts1 nodeDup (by decide) rfl rfl rfl rfl).2.1⟩

/-- C5: `get_client` is idempotent with respect to the derived key: under the
dict invariant (no duplicate keys), after the first call the cache holds
exactly one binding under the derived key — that of the returned client — and
a second call with the same arguments returns that stored client and leaves
the cache exactly as it was. -/
theorem c5_idempotent (client_type : String) (node : StorageNode) (cache : Cache)
    (h : client_type ∈ (["s3", "sts"] : List String))
    (hnd : (cache.map Prod.fst).Nodup) :
    ∃ cl key cache1,
      _get_primary_key client_type node = .ok key ∧
      get_client cache client_type node = (.ok cl, cache1) ∧
      cacheGet cache1 key = some cl ∧
      (cache1.map Prod.fst).Nodup ∧
      (cache1.map Prod.fst).count key = 1 ∧
      get_client cache1 client_type node = (.ok cl, cache1) := by
  have hpk := _get_primary_key_ok client_type node h
  obtain ⟨clB, hb⟩ := build_client_isOk client_type node h
  set key := sha256hex (str_lower (client_type ++ node.region_name ++ node.api_url ++
    node.access_key_id ++ node.secret_access_key)) with hkey
  rcases hc : cacheGet cache key with _ | cl0
  · have hgc : get_client cache client_type node = (.ok clB, cacheSet cache key clB) := by
      simp [get_client, hpk, hc, hb]
    refine ⟨clB, key, cacheSet cache key clB, hpk, hgc,
      cacheGet_cacheSet_self cache key clB,
      nodup_map_fst_cacheSet cache key clB hnd,
      count_map_fst_cacheSet_self cache key clB hnd, ?_⟩
    simp [get_client, hpk, cacheGet_cacheSet_self]
  · have hgc : get_client cache client_type node = (.ok cl0, cache) := by
      simp [get_client, hpk, hc]
    exact ⟨cl0, key, cache, hpk, hgc, hc, hnd,
      List.count_eq_one_of_mem hnd (mem_map_fst_of_cacheGet cache key cl0 hc), hgc⟩

/-- Witness for C5 from a cold cache at a concrete node. -/
theorem c5_witness :
    ("sts" ∈ (["s3", "sts"] : List String)) ∧
    ((([] : Cache).map Prod.fst).Nodup) ∧
    (∃ cl key cache1,
      _get_primary_key "sts" nodeHttps = .ok key ∧
      get_client [] "sts" nodeHttps = (.ok cl, cache1) ∧
      cacheGet cache1 key = some cl ∧
      (cache1.map Prod.fst).Nodup ∧
      (cache1.map Prod.fst).count key = 1 ∧
      get_client cache1 "sts" nodeHttps = (.ok cl, cache1)) :=
  ⟨by decide, by simp, c5_idempotent "sts" nodeHttps [] (by decide) (by simp)⟩

/-- C8: `get_client` fails — with exactly the `ValueError` raised by
`_get_primary_key` — if and only if the client kind is outside {s3, sts}; no
other error is ever produced, and on that failure the cache is unchanged. -/
theorem c8_valueerror (client_type : String) (node : StorageNode) (cache : Cache) :
    ((get_client cache client_type node).1 =
        .error (.valueError (client_type ++ " unsupported by cache")) ↔
      ¬ client_type ∈ (["s3", "sts"] : List String)) ∧
    (∀ e, (get_client cache client_type node).1 = .error e →
      e = .valueError (client_type ++ " unsupported by cache")) ∧
    (¬ client_type ∈ (["s3", "sts"] : List String) →
      (get_client cache client_type node).2 = cache) := by
  by_cases h : client_type ∈ (["s3", "sts"] : List String)
  · have hpk := _get_primary_key_ok client_type node h
    obtain ⟨clB, hb⟩ := build_client_isOk client_type node h
    have hfst : ∃ cl, (get_client cache client_type node).1 = .ok cl := by
      rcases hc : cacheGet cache (sha256hex (str_lower (client_type ++
          node.region_name ++ node.api_url ++ node.access_key_id ++
          node.secret_access_key))) with _ | cl0
      · exact ⟨clB, by simp [get_client, hpk, hc, hb]⟩
      · exact ⟨cl0, by simp [get_client, hpk, hc]⟩
    obtain ⟨cl, hcl⟩ := hfst
    refine ⟨by simp [hcl, h], ?_, fun hn => absurd h hn⟩
    intro e he
    rw [hcl] at he
    simp at he
  · have hgc : get_client cache client_type node =
        (.error (.valueError (client_type ++ " unsupported by cache")), cache) := by
      simp [get_client, _get_primary_key, h]
    refine ⟨by simp [hgc, h], ?_, fun _ => by simp [hgc]⟩
    intro e he
    rw [hgc] at he
    simp at he
    exact he.symm

/-- Witness for C8 at the unsupported kind "dynamodb". -/
theorem c8_witness :
    (¬ "dynamodb" ∈ (["s3", "sts"] : List String)) ∧
    (get_client [] "dynamodb" nodeSts1).2 = ([] : Cache) ∧
    (get_client [] "dynamodb" nodeSts1).1 =
      .error (.valueError ("dynamodb" ++ " unsupported by cache")) :=
  ⟨by decide, (c8_valueerror "dynamodb" nodeSts1 []).2.2 (by decide),
   (c8_valueerror "dynamodb" nodeSts1 []).1.mpr (by decide)⟩

/-- C10: `get_minio_sdk_client` caches under the s3 primary key with a literal
"minio" suffix — 69 characters, never equal to any 64-character boto3 digest
key — and on a miss constructs the client against the netloc component of the
node's API URL with `secure := false`, also when that URL is https. -/
theorem c10_minio_sdk (node n2 : StorageNode) (client_type : String)
    (h : client_type ∈ (["s3", "sts"] : List String)) :
    (∀ k1 k2, _get_primary_key "s3" node = .ok k1 →
      _get_primary_key client_type n2 = .ok k2 → k1 ++ "minio" ≠ k2) ∧
    (∃ k1, _get_primary_key "s3" node = .ok k1 ∧
      get_minio_sdk_client [] node =
        (.ok (.minioSdk (urlparse_netloc node.api_url) node.access_key_id
          node.secret_access_key false),
         [(k1 ++ "minio",
           .minioSdk (urlparse_netloc node.api_url) node.access_key_id
             node.secret_access_key false)])) := by
  constructor
  · intro k1 k2 h1 h2 heq
    rw [_get_primary_key_ok "s3" node (by decide)] at h1
    rw [_get_primary_key_ok client_type n2 h] at h2
    injection h1 with h1
    injection h2 with h2
    subst h1
    subst h2
    have hlen := congrArg String.length heq
    have h5 : ("minio" : String).length = 5 := rfl
    rw [String.length_append, sha256hex_length, sha256hex_length, h5] at hlen
    omega
  · refine ⟨_, _get_primary_key_ok "s3" node (by decide), ?_⟩
    simp [get_minio_sdk_client, _get_primary_key_ok "s3" node (by decide),
      cacheGet, cacheSet]

/-- Witness for C10 at a node whose API URL uses the https scheme. -/
theorem c10_witness :
    ("s3" ∈ (["s3", "sts"] : List String)) ∧
    nodeHttps.api_url = "https://s3.example.com:9000" ∧
    urlparse_netloc nodeHttps.api_url = "s3.example.com:9000" ∧
    (∃ k1, _get_primary_key "s3" nodeHttps = .ok k1 ∧
      get_minio_sdk_client [] nodeHttps =
        (.ok (.minioSdk (urlparse_netloc nodeHttps.api_url) nodeHttps.access_key_id
          nodeHttps.secret_access_key false),
         [(k1 ++ "minio",
           .minioSdk (urlparse_netloc nodeHttps.api_url) nodeHttps.access_key_id
             nodeHttps.secret_access_key false)])) :=
  ⟨by decide, rfl, by decide, (c10_minio_sdk nodeHttps nodeSts1 "s3" (by decide)).2⟩

/-- C7: for two concurrent `get_client` calls with the same key, every
interleaving in which both threads finish leaves exactly one binding in the
shared dict — the contended key mapped to the built client — with both
callers holding that same client and at most two constructions having run;
the fully racy interleaving does construct twice, while a serialized one
constructs once. -/
theorem c7_race_converges (client_type : String) (node : StorageNode)
    (h : client_type ∈ (["s3", "sts"] : List String)) :
    (∀ sched c1 c2, (runRace client_type node sched).p1 = .done c1 →
      (runRace client_type node sched).p2 = .done c2 →
      c1 = c2 ∧ build_client client_type node = .ok c1 ∧
      (∃ key, _get_primary_key client_type node = .ok key ∧
        (runRace client_type node sched).cache = [(key, c1)]) ∧
      (runRace client_type node sched).builds ≤ 2) ∧
    (runRace client_type node [true, false, true, false]).builds = 2 ∧
    (runRace client_type node [true, true, false, false]).builds = 1 := by
  have hpk := _get_primary_key_ok client_type node h
  obtain ⟨clB, hb⟩ := build_client_isOk client_type node h
  set key := sha256hex (str_lower (client_type ++ node.region_name ++ node.api_url ++
    node.access_key_id ++ node.secret_access_key)) with hkey
  have hrsn : threadRun client_type node [] .start = ([], .missed, 0) := by
    simp [threadRun, hpk, cacheGet]
  have hrmn : threadRun client_type node [] .missed = ([(key, clB)], .done clB, 1) := by
    simp [threadRun, hpk, hb, cacheSet]
  have hrso : threadRun client_type node [(key, clB)] .start =
      ([(key, clB)], .done clB, 0) := by
    simp [threadRun, hpk, cacheGet]
  have hrmo : threadRun client_type node [(key, clB)] .missed =
      ([(key, clB)], .done clB, 1) := by
    simp [threadRun, hpk, hb, cacheSet]
  have hInv : ∀ sched : List Bool, raceInv key clB (runRace client_type node sched) := by
    intro sched
    have hall : ∀ (l : List Bool) (s : RaceState), raceInv key clB s →
        raceInv key clB (l.foldl (raceStep client_type node) s) := by
      intro l
      induction l with
      | nil => exact fun s hs => hs
      | cons w ws ih =>
        exact fun s hs => ih _ (raceInv_step client_type node key clB hpk hb s w hs)
    exact hall sched _ (Or.inl ⟨rfl, Or.inl rfl, Or.inl rfl, rfl⟩)
  have e1 : raceStep client_type node ⟨[], .start, .start, 0⟩ true =
      ⟨[], .missed, .start, 0⟩ := by
    simp [raceStep, hrsn]
  have e2 : raceStep client_type node ⟨[], .missed, .start, 0⟩ false =
      ⟨[], .missed, .missed, 0⟩ := by
    simp [raceStep, hrsn]
  have e3 : raceStep client_type node ⟨[], .missed, .missed, 0⟩ true =
      ⟨[(key, clB)], .done clB, .missed, 1⟩ := by
    simp [raceStep, hrmn]
  have e4 : raceStep client_type node ⟨[(key, clB)], .done clB, .missed, 1⟩ false =
      ⟨[(key, clB)], .done clB, .done clB, 2⟩ := by
    simp [raceStep, hrmo]
  have f2 : raceStep client_type node ⟨[], .missed, .start, 0⟩ true =
      ⟨[(key, clB)], .done clB, .start, 1⟩ := by
    simp [raceStep, hrmn]
  have f3 : raceStep client_type node ⟨[(key, clB)], .done clB, .start, 1⟩ false =
      ⟨[(key, clB)], .done clB, .done clB, 1⟩ := by
    simp [raceStep, hrso]
  have f4 : raceStep client_type node ⟨[(key, clB)], .done clB, .done clB, 1⟩ false =
      ⟨[(key, clB)], .done clB, .done clB, 1⟩ := by
    simp [raceStep, threadRun]
  refine ⟨?_, ?_, ?_⟩
  · intro sched c1 c2 hd1 hd2
    rcases hInv sched with ⟨hc, hp1, hp2, hbu⟩ | ⟨hc, hp1, hp2, hble⟩
    · rcases hp1 with h1 | h1 <;> rw [h1] at hd1 <;> simp at hd1
    · rcases hp1 with h1 | h1 | h1
      · rw [h1] at hd1; simp at hd1
      · rw [h1] at hd1; simp at hd1
      · rcases hp2 with h2 | h2 | h2
        · rw [h2] at hd2; simp at hd2
        · rw [h2] at hd2; simp at hd2
        · rw [h1] at hd1
          rw [h2] at hd2
          injection hd1 with hc1
          injection hd2 with hc2
          subst hc1
          subst hc2
          refine ⟨rfl, hb, ⟨key, hpk, hc⟩, ?_⟩
          rw [h1, h2] at hble
          simpa [phaseBuilds] using hble
  · simp only [runRace, List.foldl]
    rw [e1, e2, e3, e4]
  · simp only [runRace, List.foldl]
    rw [e1, f2, f3, f4]

/-- Witness for C7 at a concrete node: the racy interleaving builds twice,
the serialized one once. -/
theorem c7_witness :
    ("s3" ∈ (["s3", "sts"] : List String)) ∧
    (runRace "s3" nodeSts1 [true, false, true, false]).builds = 2 ∧
    (runRace "s3" nodeSts1 [true, true, false, false]).builds = 1 :=
  ⟨by decide, (c7_race_converges "s3" nodeSts1 (by decide)).2.1,
   (c7_race_converges "s3" nodeSts1 (by decide)).2.2⟩
